import Mathlib

/-!
Shallow embedding of the carespace-javascript-sdk request-building and
error-normalization layer: the error taxonomy and `createError` from
`src/errors.js`, the request/response interceptors and `setApiKey` from
`src/client.js`, and `buildUrl` / `buildQueryParams` from `src/api/base.js`.
JavaScript strings are Lean `String`s, absent/undefined values are `Option`,
and the mutable client state is passed explicitly.
-/

namespace Carespace

/-! ## Percent encoding

`encodeURIComponent` keeps ASCII alphanumerics and `-_.!~*'()` and
percent-encodes the UTF-8 bytes of every other character.
`URLSearchParams` serialization (used by `buildQueryParams`) keeps ASCII
alphanumerics and `*-._`, turns a space into `+`, and percent-encodes the
UTF-8 bytes of everything else. -/

def utf8Bytes (c : Char) : List Nat :=
  let n := c.toNat
  if n < 128 then [n]
  else if n < 2048 then [192 + n / 64, 128 + n % 64]
  else if n < 65536 then [224 + n / 4096, 128 + (n / 64) % 64, 128 + n % 64]
  else [240 + n / 262144, 128 + (n / 4096) % 64, 128 + (n / 64) % 64, 128 + n % 64]

def hexDigit (n : Nat) : Char :=
  if n < 10 then Char.ofNat (48 + n) else Char.ofNat (55 + n)

def percentByte (b : Nat) : String :=
  "%" ++ String.singleton (hexDigit (b / 16)) ++ String.singleton (hexDigit (b % 16))

def uriComponentSafe (c : Char) : Bool :=
  c.isAlphanum || c == Char.ofNat 45 || c == Char.ofNat 95 || c == Char.ofNat 46 ||
    c == Char.ofNat 33 || c == Char.ofNat 126 || c == Char.ofNat 42 ||
    c == Char.ofNat 39 || c == Char.ofNat 40 || c == Char.ofNat 41

def encodeURIComponent (s : String) : String :=
  String.join (s.data.map (fun c =>
    if uriComponentSafe c then String.singleton c
    else String.join ((utf8Bytes c).map percentByte)))

def formSafe (c : Char) : Bool :=
  c.isAlphanum || c == Char.ofNat 42 || c == Char.ofNat 45 ||
    c == Char.ofNat 46 || c == Char.ofNat 95

def formEncodeChar (c : Char) : String :=
  if c == Char.ofNat 32 then "+"
  else if formSafe c then String.singleton c
  else String.join ((utf8Bytes c).map percentByte)

def formEncode (s : String) : String :=
  String.join (s.data.map formEncodeChar)

/-! ## Error taxonomy (`src/errors.js`)

Each JavaScript error class becomes a constructor function producing an
`ErrorInstance`; the class identity becomes the `kind` tag. -/

/-- The response body shape the interceptor inspects: `data?.message`,
`data?.error`, and the validation detail list `data?.errors`. -/
structure ResponseBody where
  message : Option String
  error : Option String
  errors : Option (List String)
deriving DecidableEq

/-- An HTTP response as seen by the response interceptor: status, status
text, and parsed body (`none` models a missing/non-object body). -/
structure HttpResponse where
  status : Nat
  statusText : String
  data : Option ResponseBody
deriving DecidableEq

inductive ErrorKind where
  | authentication
  | authorization
  | notFound
  | validation
  | rateLimit
  | server
  | network
  | timeout
  | generic
deriving DecidableEq

structure ErrorInstance where
  kind : ErrorKind
  name : String
  message : String
  statusCode : Option Nat
  response : Option HttpResponse
  errors : List String
deriving DecidableEq

/-- Base class `CarespaceError(message, statusCode = null, response = null)`. -/
def CarespaceError (message : String) (statusCode : Option Nat)
    (response : Option HttpResponse) : ErrorInstance :=
  { kind := ErrorKind.generic, name := "CarespaceError", message := message,
    statusCode := statusCode, response := response, errors := [] }

def AuthenticationError (message : String) (statusCode : Option Nat)
    (response : Option HttpResponse) : ErrorInstance :=
  { CarespaceError message statusCode response with
    kind := ErrorKind.authentication, name := "AuthenticationError" }

def AuthorizationError (message : String) (statusCode : Option Nat)
    (response : Option HttpResponse) : ErrorInstance :=
  { CarespaceError message statusCode response with
    kind := ErrorKind.authorization, name := "AuthorizationError" }

def NotFoundError (message : String) (statusCode : Option Nat)
    (response : Option HttpResponse) : ErrorInstance :=
  { CarespaceError message statusCode response with
    kind := ErrorKind.notFound, name := "NotFoundError" }

/-- `ValidationError(message, statusCode = 400, response = null, errors = [])`
stores the extra `errors` detail list. -/
def ValidationError (message : String) (statusCode : Option Nat)
    (response : Option HttpResponse) (errors : List String) : ErrorInstance :=
  { CarespaceError message statusCode response with
    kind := ErrorKind.validation, name := "ValidationError", errors := errors }

def RateLimitError (message : String) (statusCode : Option Nat)
    (response : Option HttpResponse) : ErrorInstance :=
  { CarespaceError message statusCode response with
    kind := ErrorKind.rateLimit, name := "RateLimitError" }

def ServerError (message : String) (statusCode : Option Nat)
    (response : Option HttpResponse) : ErrorInstance :=
  { CarespaceError message statusCode response with
    kind := ErrorKind.server, name := "ServerError" }

/-- `NetworkError(message, response = null)` passes `null` for the status
code: network-kind errors never carry one. -/
def NetworkError (message : String) (response : Option HttpResponse) : ErrorInstance :=
  { kind := ErrorKind.network, name := "NetworkError", message := message,
    statusCode := none, response := response, errors := [] }

/-- `TimeoutError extends NetworkError`: same fields, only the class
identity (kind/name) differs. -/
def TimeoutError (message : String) (response : Option HttpResponse) : ErrorInstance :=
  { NetworkError message response with
    kind := ErrorKind.timeout, name := "TimeoutError" }

/-- `createError(status, message, response = null)`: the status-code switch
of `src/errors.js`. The `ValidationError` call passes no detail list, so the
JavaScript default `errors = []` applies. -/
def createError (status : Nat) (message : String)
    (response : Option HttpResponse) : ErrorInstance :=
  match status with
  | 401 => AuthenticationError message (some status) response
  | 403 => AuthorizationError message (some status) response
  | 404 => NotFoundError message (some status) response
  | 400 => ValidationError message (some status) response []
  | 422 => ValidationError message (some status) response []
  | 429 => RateLimitError message (some status) response
  | 500 => ServerError message (some status) response
  | 502 => ServerError message (some status) response
  | 503 => ServerError message (some status) response
  | 504 => ServerError message (some status) response
  | _ => CarespaceError message (some status) response

/-! ## Response interceptor (`src/client.js`) -/

/-- JavaScript truthiness of an optional string value: `undefined`, `null`
and `""` are falsy. -/
def truthy : Option String → Bool
  | none => false
  | some s => !(s == "")

/-- The message extraction of the response interceptor:
`data?.message || data?.error || "HTTP <status>: <statusText>"`. -/
def extractMessage (resp : HttpResponse) : String :=
  let m := resp.data.bind ResponseBody.message
  let e := resp.data.bind ResponseBody.error
  if truthy m then m.getD ""
  else if truthy e then e.getD ""
  else "HTTP " ++ toString resp.status ++ ": " ++ resp.statusText

/-- The three failure shapes an axios error can take: a response with a
non-2xx status, a dispatched request that saw no response (with the
transport failure code, e.g. `ECONNABORTED`), or a failure while setting up
the request. -/
inductive AxiosError where
  | response (resp : HttpResponse)
  | request (code : Option String)
  | setup (message : String)

/-- The error branch of the response interceptor in `src/client.js`. -/
def handleError : AxiosError → ErrorInstance
  | AxiosError.response resp => createError resp.status (extractMessage resp) (some resp)
  | AxiosError.request code =>
      if code = some "ECONNABORTED" then TimeoutError "Request timeout" none
      else NetworkError "Network error - no response received" none
  | AxiosError.setup msg => NetworkError ("Request setup error: " ++ msg) none

/-- A successful (2xx) transport response carrying a parsed body of any
shape. -/
structure AxiosSuccess (α : Type) where
  status : Nat
  data : α

/-- The success branch of the response interceptor: `(response) => response`. -/
def successInterceptor {α : Type} (r : AxiosSuccess α) : AxiosSuccess α := r

/-- `client.get` (and the other verbs): pass the response through the
interceptor and return `response.data`. -/
def clientGet {α : Type} (r : AxiosSuccess α) : α :=
  (successInterceptor r).data

/-! ## Request interceptor and `setApiKey` (`src/client.js`) -/

/-- The mutable client state read by the request interceptor: `this.apiKey`,
absent when the configuration supplied none. -/
structure ClientState where
  apiKey : Option String

/-- `setApiKey(apiKey) { this.apiKey = apiKey; }` -/
def setApiKey (st : ClientState) (key : String) : ClientState :=
  { st with apiKey := some key }

/-- Assigning `headers[k] = v`: overwrite an existing entry or append. -/
def setHeader (hs : List (String × String)) (k v : String) : List (String × String) :=
  if hs.any (fun p => p.1 == k) then
    hs.map (fun p => if p.1 == k then (k, v) else p)
  else hs ++ [(k, v)]

def getHeader (hs : List (String × String)) (k : String) : Option String :=
  (hs.find? (fun p => p.1 == k)).map Prod.snd

/-- The request interceptor:
`if (this.apiKey) config.headers.Authorization = "Bearer " + this.apiKey`.
It reads the state at dispatch time. -/
def requestInterceptor (st : ClientState) (hs : List (String × String)) :
    List (String × String) :=
  if truthy st.apiKey then
    setHeader hs "Authorization" ("Bearer " ++ st.apiKey.getD "")
  else hs

/-- The default headers of a client constructed without `config.headers`. -/
def defaultHeaders : List (String × String) :=
  [("Content-Type", "application/json")]

/-- The headers of a request dispatched in state `st` (default construction). -/
def dispatchHeaders (st : ClientState) : List (String × String) :=
  requestInterceptor st defaultHeaders

/-! ## Path and query building (`src/api/base.js`) -/

/-- A scalar JavaScript value appearing inside a query-parameter array;
`String(value)` coercion is `scalarString`. -/
inductive QScalar where
  | str (s : String)
  | num (n : Int)
  | bool (b : Bool)
  | null
deriving DecidableEq

def scalarString : QScalar → String
  | QScalar.str s => s
  | QScalar.num n => toString n
  | QScalar.bool b => if b then "true" else "false"
  | QScalar.null => "null"

/-- A JavaScript value of a query-parameter entry. -/
inductive QVal where
  | undefined
  | null
  | str (s : String)
  | num (n : Int)
  | bool (b : Bool)
  | arr (xs : List QScalar)
deriving DecidableEq

/-- One loop iteration of `buildQueryParams`: the guard
`value !== undefined && value !== null && value !== ''`, then either one
`searchParams.append(key, value)` or one append per array element. -/
def appendParam (acc : List (String × String)) (key : String) (value : QVal) :
    List (String × String) :=
  match value with
  | QVal.undefined => acc
  | QVal.null => acc
  | QVal.str s => if s = "" then acc else acc ++ [(key, s)]
  | QVal.num n => acc ++ [(key, toString n)]
  | QVal.bool b => acc ++ [(key, if b then "true" else "false")]
  | QVal.arr xs => xs.foldl (fun a it => a ++ [(key, scalarString it)]) acc

/-- `URLSearchParams.toString()`: the accumulated pairs, each form-encoded
as `key=value`, joined with `&`. -/
def serializePairs : List (String × String) → String
  | [] => ""
  | [p] => formEncode p.1 ++ "=" ++ formEncode p.2
  | p :: q :: rest => formEncode p.1 ++ "=" ++ formEncode p.2 ++ "&" ++ serializePairs (q :: rest)

/-- `buildQueryParams(params)` of `src/api/base.js`: fold the entries in
mapping order through `appendParam`, serialize, and prefix `?` when the
serialized string is nonempty. -/
def buildQueryParams (params : List (String × QVal)) : String :=
  let searchParams := params.foldl (fun acc kv => appendParam acc kv.1 kv.2) []
  let queryString := serializePairs searchParams
  if queryString = "" then "" else "?" ++ queryString

/-- The pairs one entry contributes, written from the specification text:
entries whose value is undefined, null or the empty string are skipped,
a sequence value contributes one pair per element in element order, and a
scalar value contributes one pair. -/
def specPairs (key : String) (value : QVal) : List (String × String) :=
  match value with
  | QVal.undefined => []
  | QVal.null => []
  | QVal.str s => if s = "" then [] else [(key, s)]
  | QVal.num n => [(key, toString n)]
  | QVal.bool b => [(key, if b then "true" else "false")]
  | QVal.arr xs => xs.map (fun it => (key, scalarString it))

/-- `buildQuery` as the specification words it: collect the pairs of every
entry in mapping order, return the empty string when no pairs were added,
otherwise `?` followed by the encoded pairs joined with `&`. -/
def buildQuerySpec (params : List (String × QVal)) : String :=
  let pairs := params.foldr (fun kv rest => specPairs kv.1 kv.2 ++ rest) []
  if pairs = [] then "" else "?" ++ serializePairs pairs

/-- `url.replace(pat, rep)` for a string pattern: replace the first
occurrence only; no occurrence leaves the string unchanged. -/
def replaceFirstL (s pat rep : List Char) : List Char :=
  match s with
  | [] => if pat = [] then rep else []
  | c :: cs =>
      if pat.isPrefixOf (c :: cs) then rep ++ (c :: cs).drop pat.length
      else c :: replaceFirstL cs pat rep

def replaceFirst (s pat rep : String) : String :=
  (replaceFirstL s.data pat.data rep.data).asString

/-- `buildUrl(path, params)` of `src/api/base.js`: for each key in mapping
order, replace the first occurrence of the brace-wrapped key with the
percent-encoded value. -/
def buildUrl (path : String) (params : List (String × String)) : String :=
  params.foldl
    (fun url kv => replaceFirst url ("\x7b" ++ kv.1 ++ "\x7d") (encodeURIComponent kv.2))
    path

/-! ## Helper lemmas -/

theorem createError_message_eq (status : Nat) (m : String) (r : Option HttpResponse) :
    (createError status m r).message = m := by
  unfold createError
  split <;> rfl

theorem handleError_response_message (resp : HttpResponse) :
    (handleError (AxiosError.response resp)).message = extractMessage resp := by
  simp [handleError, createError_message_eq]

theorem foldl_append_pairs (key : String) (xs : List QScalar) (acc : List (String × String)) :
    xs.foldl (fun a it => a ++ [(key, scalarString it)]) acc =
      acc ++ xs.map (fun it => (key, scalarString it)) := by
  induction xs generalizing acc with
  | nil => simp
  | cons x xs ih => simp [List.foldl_cons, ih]

theorem appendParam_eq_specPairs (acc : List (String × String)) (key : String) (v : QVal) :
    appendParam acc key v = acc ++ specPairs key v := by
  cases v with
  | undefined => simp [appendParam, specPairs]
  | null => simp [appendParam, specPairs]
  | str s => by_cases hs : s = "" <;> simp [appendParam, specPairs, hs]
  | num n => simp [appendParam, specPairs]
  | bool b => simp [appendParam, specPairs]
  | arr xs => simpa [appendParam, specPairs] using foldl_append_pairs key xs acc

theorem foldl_appendParam_eq (params : List (String × QVal)) (acc : List (String × String)) :
    params.foldl (fun acc kv => appendParam acc kv.1 kv.2) acc =
      acc ++ params.foldr (fun kv rest => specPairs kv.1 kv.2 ++ rest) [] := by
  induction params generalizing acc with
  | nil => simp
  | cons kv ps ih =>
      rw [List.foldl_cons, appendParam_eq_specPairs, ih, List.foldr_cons, List.append_assoc]

theorem serializePairs_cons_length (p : String × String) (ps : List (String × String)) :
    1 ≤ (serializePairs (p :: ps)).length := by
  have h1 : ("=" : String).length = 1 := rfl
  have h2 : ("&" : String).length = 1 := rfl
  cases ps with
  | nil =>
      show 1 ≤ (formEncode p.1 ++ "=" ++ formEncode p.2).length
      rw [String.length_append, String.length_append]
      omega
  | cons q rest =>
      show 1 ≤ (formEncode p.1 ++ "=" ++ formEncode p.2 ++ "&" ++ serializePairs (q :: rest)).length
      rw [String.length_append, String.length_append, String.length_append,
        String.length_append]
      omega

theorem serializePairs_cons_ne_empty (p : String × String) (ps : List (String × String)) :
    serializePairs (p :: ps) ≠ "" := by
  intro h
  have h1 := serializePairs_cons_length p ps
  rw [h] at h1
  simp at h1

theorem replaceFirstL_no_occurrence (s pat rep : List Char) (h : ¬ pat <:+: s) :
    replaceFirstL s pat rep = s := by
  induction s with
  | nil =>
      have hne : pat ≠ [] := by
        intro he
        exact h (he ▸ List.nil_infix)
      simp [replaceFirstL, hne]
  | cons c cs ih =>
      have hnp : ¬ pat.isPrefixOf (c :: cs) = true := by
        intro hp
        exact h ( List.IsPrefix.isInfix (by simpa using hp))
      rw [replaceFirstL, if_neg hnp]
      rw [ih (fun hi => h ( List.infix_cons hi))]

theorem replaceFirstL_first_occurrence (pat : List Char) (hpat : pat ≠ []) :
    ∀ (a b rep : List Char), ¬ pat <:+: (a ++ pat.dropLast) →
      replaceFirstL (a ++ pat ++ b) pat rep = a ++ rep ++ b := by
  intro a
  induction a with
  | nil =>
      intro b rep _
      obtain ⟨c, cs, hcc⟩ : ∃ c cs, pat = c :: cs := by
        cases pat with
        | nil => exact absurd rfl hpat
        | cons c cs => exact ⟨c, cs, rfl⟩
      have hpre : pat.isPrefixOf (pat ++ b) = true := by
        simp
      rw [List.nil_append, List.nil_append]
      rw [hcc, List.cons_append, replaceFirstL]
      rw [← List.cons_append, ← hcc, if_pos hpre]
      rw [List.drop_left]
  | cons x a' ih =>
      intro b rep h
      have hq : ((x :: a') ++ pat.dropLast) <+: ((x :: a') ++ pat ++ b) := by
        have hsplit : (x :: a') ++ pat ++ b =
            ((x :: a') ++ pat.dropLast) ++ ([pat.getLast hpat] ++ b) := by
          rw [List.append_assoc, List.append_assoc, ← List.append_assoc pat.dropLast]
          rw [List.dropLast_concat_getLast hpat]
        rw [hsplit]
        exact List.prefix_append _ _
      have hlen : pat.length ≤ ((x :: a') ++ pat.dropLast).length := by
        rw [List.length_append, List.length_cons, List.length_dropLast]
        have : 1 ≤ pat.length := List.length_pos.mpr hpat
        omega
      have hnp : ¬ pat.isPrefixOf ((x :: a') ++ pat ++ b) = true := by
        intro hp
        have hp2 : pat <+: ((x :: a') ++ pat ++ b) := by simpa using hp
        exact h ( List.IsPrefix.isInfix
          (List.prefix_of_prefix_length_le hp2 hq hlen))
      have hrec : ¬ pat <:+: (a' ++ pat.dropLast) := by
        intro hi
        exact h ( List.infix_cons hi)
      rw [List.cons_append, List.cons_append, replaceFirstL]
      rw [← List.cons_append, ← List.cons_append, if_neg hnp]
      rw [List.cons_append, List.cons_append]
      rw [ih b rep hrec]

/-! ## Claim theorems -/

/-- Claim C1: `createError(status, msg)` maps 401 to Authentication, 403 to
Authorization, 404 to NotFound, 400 and 422 to Validation, 429 to RateLimit,
500/502/503/504 to Server, and every status outside the table (such as 501)
to the Generic base kind. -/
theorem createError_status_kind_mapping (s : Nat) (m : String) (r : Option HttpResponse)
    (h : s ∉ ([401, 403, 404, 400, 422, 429, 500, 502, 503, 504] : List Nat)) :
    (createError 401 m r).kind = ErrorKind.authentication ∧
    (createError 403 m r).kind = ErrorKind.authorization ∧
    (createError 404 m r).kind = ErrorKind.notFound ∧
    (createError 400 m r).kind = ErrorKind.validation ∧
    (createError 422 m r).kind = ErrorKind.validation ∧
    (createError 429 m r).kind = ErrorKind.rateLimit ∧
    (createError 500 m r).kind = ErrorKind.server ∧
    (createError 502 m r).kind = ErrorKind.server ∧
    (createError 503 m r).kind = ErrorKind.server ∧
    (createError 504 m r).kind = ErrorKind.server ∧
    (createError s m r).kind = ErrorKind.generic := by
  refine ⟨rfl, rfl, rfl, rfl, rfl, rfl, rfl, rfl, rfl, rfl, ?_⟩
  unfold createError
  split <;> first | rfl | simp_all

/-- Witness for C1 at the unmapped status 501. -/
theorem createError_status_kind_mapping_witness :
    (createError 401 "m" none).kind = ErrorKind.authentication ∧
    (createError 403 "m" none).kind = ErrorKind.authorization ∧
    (createError 404 "m" none).kind = ErrorKind.notFound ∧
    (createError 400 "m" none).kind = ErrorKind.validation ∧
    (createError 422 "m" none).kind = ErrorKind.validation ∧
    (createError 429 "m" none).kind = ErrorKind.rateLimit ∧
    (createError 500 "m" none).kind = ErrorKind.server ∧
    (createError 502 "m" none).kind = ErrorKind.server ∧
    (createError 503 "m" none).kind = ErrorKind.server ∧
    (createError 504 "m" none).kind = ErrorKind.server ∧
    (createError 501 "m" none).kind = ErrorKind.generic :=
  createError_status_kind_mapping 501 "m" none (by decide)

/-- Claim C2, counterexample: a 422 response whose body carries
`errors = ["email invalid"]` surfaces as a Validation-kind error, but the
surfaced error's `errors` field is empty, not the body's detail list —
`createError` never forwards the body's `errors` to `ValidationError`. -/
theorem validation_details_not_forwarded :
    (handleError (AxiosError.response
      { status := 422, statusText := "Unprocessable Entity",
        data := some { message := none, error := none,
                       errors := some ["email invalid"] } })).kind
      = ErrorKind.validation ∧
    (handleError (AxiosError.response
      { status := 422, statusText := "Unprocessable Entity",
        data := some { message := none, error := none,
                       errors := some ["email invalid"] } })).errors
      ≠ ["email invalid"] := by
  exact ⟨rfl, by decide⟩

/-- Claim C2 as amended: a failed response with a Validation-mapped status
(400 or 422) surfaces as a Validation-kind error whose `errors` detail list
is always empty; the body's detail list is reachable only through the
attached raw response. -/
theorem validation_error_empty_details (resp : HttpResponse)
    (h : resp.status = 400 ∨ resp.status = 422) :
    (handleError (AxiosError.response resp)).kind = ErrorKind.validation ∧
    (handleError (AxiosError.response resp)).errors = [] ∧
    (handleError (AxiosError.response resp)).response = some resp := by
  rcases h with h | h <;> (simp only [handleError]; rw [h]; exact ⟨rfl, rfl, rfl⟩)

/-- Witness for the amended C2 at a concrete 422 response. -/
theorem validation_error_empty_details_witness :
    (handleError (AxiosError.response
      { status := 422, statusText := "Unprocessable Entity",
        data := some { message := none, error := none,
                       errors := some ["email invalid"] } })).kind
      = ErrorKind.validation ∧
    (handleError (AxiosError.response
      { status := 422, statusText := "Unprocessable Entity",
        data := some { message := none, error := none,
                       errors := some ["email invalid"] } })).errors = [] ∧
    (handleError (AxiosError.response
      { status := 422, statusText := "Unprocessable Entity",
        data := some { message := none, error := none,
                       errors := some ["email invalid"] } })).response
      = some { status := 422, statusText := "Unprocessable Entity",
               data := some { message := none, error := none,
                              errors := some ["email invalid"] } } :=
  validation_error_empty_details
    { status := 422, statusText := "Unprocessable Entity",
      data := some { message := none, error := none,
                     errors := some ["email invalid"] } }
    (Or.inr rfl)

/-- Claim C3: `buildQueryParams` agrees pointwise with the specification's
description (`buildQuerySpec`): iterate in mapping order, skip
undefined/null/empty entries, one encoded pair per sequence element and one
per scalar, empty string when no pairs, otherwise a question mark followed
by the pairs joined with ampersands; including the two spec examples. -/
theorem buildQueryParams_matches_spec (params : List (String × QVal)) :
    buildQueryParams params = buildQuerySpec params ∧
    buildQueryParams [] = "" ∧
    buildQueryParams [("page", QVal.num 1), ("limit", QVal.num 10)] = "?page=1&limit=10" := by
  refine ⟨?_, rfl, rfl⟩
  unfold buildQueryParams buildQuerySpec
  rw [foldl_appendParam_eq, List.nil_append]
  cases hps : params.foldr (fun kv rest => specPairs kv.1 kv.2 ++ rest) [] with
  | nil => rfl
  | cons p rest => simp [serializePairs_cons_ne_empty]

/-- Claim C4: `buildUrl` replaces, per key of the mapping, the first
occurrence of the brace-wrapped key with the percent-encoded value; a
template containing no placeholder of any supplied key is returned
untouched (placeholders without a matching key are not an error); and the
spec example holds. -/
theorem buildUrl_placeholder_substitution (k v a b t : String)
    (ps : List (String × String))
    (h1 : ¬ ("\x7b" ++ k ++ "\x7d").data <:+: (a ++ "\x7b" ++ k).data)
    (h2 : ∀ kv ∈ ps, ¬ ("\x7b" ++ kv.1 ++ "\x7d").data <:+: t.data) :
    buildUrl (a ++ ("\x7b" ++ k ++ "\x7d") ++ b) [(k, v)] =
      a ++ encodeURIComponent v ++ b ∧
    buildUrl t ps = t ∧
    buildUrl "/users/\x7bid\x7d/settings" [("id", "123")] = "/users/123/settings" := by
  refine ⟨?_, ?_, by rfl⟩
  · simp only [buildUrl, List.foldl_cons, List.foldl_nil]
    unfold replaceFirst
    have hbr : ("\x7d" : String).data = [Char.ofNat 125] := by decide
    have hd : ("\x7b" ++ k ++ "\x7d").data = ("\x7b" ++ k).data ++ [Char.ofNat 125] := by
      rw [String.data_append, hbr]
    have hne : ("\x7b" ++ k ++ "\x7d").data ≠ [] := by
      rw [hd]; simp
    have hdrop : ("\x7b" ++ k ++ "\x7d").data.dropLast = ("\x7b" ++ k).data := by
      rw [hd, List.dropLast_concat]
    have hnotin : ¬ ("\x7b" ++ k ++ "\x7d").data <:+:
        (a.data ++ ("\x7b" ++ k ++ "\x7d").data.dropLast) := by
      rw [hdrop]
      intro hi
      apply h1
      have hassoc : (a ++ "\x7b" ++ k).data = a.data ++ ("\x7b" ++ k).data := by
        simp [String.data_append, List.append_assoc]
      rw [hassoc]
      exact hi
    have hpath : (a ++ ("\x7b" ++ k ++ "\x7d") ++ b).data =
        a.data ++ ("\x7b" ++ k ++ "\x7d").data ++ b.data := by
      simp [String.data_append]
    rw [hpath]
    rw [replaceFirstL_first_occurrence ("\x7b" ++ k ++ "\x7d").data hne a.data b.data
      (encodeURIComponent v).data hnotin]
    apply String.ext
    simp [List.asString, String.data_append]
  · induction ps with
    | nil => rfl
    | cons kv ps ih =>
        have hhead := h2 kv (List.mem_cons_self kv ps)
        have htail : ∀ kv2 ∈ ps, ¬ ("\x7b" ++ kv2.1 ++ "\x7d").data <:+: t.data :=
          fun kv2 hm => h2 kv2 (List.mem_cons_of_mem kv hm)
        simp only [buildUrl, List.foldl_cons]
        have hstep : replaceFirst t ("\x7b" ++ kv.1 ++ "\x7d")
            (encodeURIComponent kv.2) = t := by
          unfold replaceFirst
          rw [replaceFirstL_no_occurrence _ _ _ hhead]
          apply String.ext
          simp [List.asString]
        rw [hstep]
        simpa [buildUrl] using ih htail

/-- Witness for C4: substitution in `/users/` + placeholder + `/settings`,
an untouched template whose placeholder names no supplied key, and the spec
example. -/
theorem buildUrl_placeholder_substitution_witness :
    buildUrl ("/users/" ++ ("\x7b" ++ "id" ++ "\x7d") ++ "/settings") [("id", "123")] =
      "/users/" ++ encodeURIComponent "123" ++ "/settings" ∧
    buildUrl "/users/\x7bname\x7d" [("id", "9")] = "/users/\x7bname\x7d" ∧
    buildUrl "/users/\x7bid\x7d/settings" [("id", "123")] = "/users/123/settings" :=
  buildUrl_placeholder_substitution "id" "123" "/users/" "/settings"
    "/users/\x7bname\x7d" [("id", "9")] (by decide) (by decide)

/-- Claim C5: when the key is non-empty at dispatch the interceptor sends
`Authorization: Bearer <key>` using the state current at that moment
(any earlier `setApiKey` is visible, whatever the construction-time key
was); when the key is unset or empty at dispatch no Authorization header is
sent. -/
theorem authorization_header_current_key (st st2 : ClientState) (k : String)
    (hk : k ≠ "") (h2 : truthy st2.apiKey = false) :
    getHeader (dispatchHeaders (setApiKey st k)) "Authorization" =
      some ("Bearer " ++ k) ∧
    getHeader (dispatchHeaders st2) "Authorization" = none := by
  have hb : (k == "") = false := by
    rw [beq_eq_false_iff_ne]
    exact hk
  constructor
  · simp [dispatchHeaders, requestInterceptor, setApiKey, truthy, hb, setHeader,
      defaultHeaders, getHeader]
  · simp [dispatchHeaders, requestInterceptor, h2, defaultHeaders, getHeader]

/-- Witness for C5: a client constructed with an old key and then rotated
to `abc` sends `Bearer abc`; a keyless client sends no header. -/
theorem authorization_header_current_key_witness :
    getHeader (dispatchHeaders (setApiKey { apiKey := some "old" } "abc"))
      "Authorization" = some ("Bearer " ++ "abc") ∧
    getHeader (dispatchHeaders { apiKey := none }) "Authorization" = none :=
  authorization_header_current_key { apiKey := some "old" } { apiKey := none }
    "abc" (by decide) rfl

/-- Claim C6: with no response received, transport code `ECONNABORTED`
surfaces as a Timeout-kind error (not Network-kind), any other code as a
Network-kind error; a request-setup failure surfaces as a Network-kind
error wrapping the setup failure message. -/
theorem no_response_error_classification (code : Option String) (m : String)
    (hc : code ≠ some "ECONNABORTED") :
    ((handleError (AxiosError.request (some "ECONNABORTED"))).kind = ErrorKind.timeout ∧
      (handleError (AxiosError.request (some "ECONNABORTED"))).kind ≠ ErrorKind.network) ∧
    (handleError (AxiosError.request code)).kind = ErrorKind.network ∧
    (handleError (AxiosError.setup m)).kind = ErrorKind.network ∧
    (handleError (AxiosError.setup m)).message = "Request setup error: " ++ m := by
  refine ⟨⟨rfl, by decide⟩, ?_, rfl, rfl⟩
  simp [handleError, hc, NetworkError]

/-- Witness for C6 at a no-response failure without a code and the setup
message `bad config`. -/
theorem no_response_error_classification_witness :
    ((handleError (AxiosError.request (some "ECONNABORTED"))).kind = ErrorKind.timeout ∧
      (handleError (AxiosError.request (some "ECONNABORTED"))).kind ≠ ErrorKind.network) ∧
    (handleError (AxiosError.request none)).kind = ErrorKind.network ∧
    (handleError (AxiosError.setup "bad config")).kind = ErrorKind.network ∧
    (handleError (AxiosError.setup "bad config")).message =
      "Request setup error: " ++ "bad config" :=
  no_response_error_classification none "bad config" (by decide)

/-- Claim C7, counterexample: a response whose body has a present but
empty `message` field together with `error = "oops"` surfaces with message
`"oops"`, not the present `message` value — the extraction tests JavaScript
truthiness, not presence. -/
theorem message_extraction_counterexample :
    (HttpResponse.mk 404 "Not Found"
      (some (ResponseBody.mk (some "") (some "oops") none))).data.bind
      ResponseBody.message = some "" ∧
    (handleError (AxiosError.response (HttpResponse.mk 404 "Not Found"
      (some (ResponseBody.mk (some "") (some "oops") none))))).message ≠ "" := by
  exact ⟨rfl, by decide⟩

/-- Claim C7 as amended: the surfaced message is the body's `message` field
when present and non-empty, otherwise the body's `error` field when present
and non-empty, otherwise `HTTP <status>: <status text>`; and a successful
response's parsed body is returned to the caller unchanged. -/
theorem message_extraction_truthy {α : Type} (r1 r2 r3 : HttpResponse)
    (s e : String) (x : AxiosSuccess α)
    (h1 : r1.data.bind ResponseBody.message = some s) (h1s : s ≠ "")
    (h2m : truthy (r2.data.bind ResponseBody.message) = false)
    (h2 : r2.data.bind ResponseBody.error = some e) (h2s : e ≠ "")
    (h3m : truthy (r3.data.bind ResponseBody.message) = false)
    (h3e : truthy (r3.data.bind ResponseBody.error) = false) :
    (handleError (AxiosError.response r1)).message = s ∧
    (handleError (AxiosError.response r2)).message = e ∧
    (handleError (AxiosError.response r3)).message =
      "HTTP " ++ toString r3.status ++ ": " ++ r3.statusText ∧
    clientGet x = x.data := by
  have hb1 : (s == "") = false := by
    rw [beq_eq_false_iff_ne]
    exact h1s
  have hb2 : (e == "") = false := by
    rw [beq_eq_false_iff_ne]
    exact h2s
  have hts : truthy (some s) = true := by simp [truthy, hb1]
  have hte : truthy (some e) = true := by simp [truthy, hb2]
  refine ⟨?_, ?_, ?_, rfl⟩
  · simp [handleError_response_message, extractMessage, h1, hts]
  · simp [handleError_response_message, extractMessage, h2m, h2, hte]
  · simp [handleError_response_message, extractMessage, h3m, h3e]

/-- Witness for the amended C7: a 404 with `message = "not found"`, a
response falling back to `error = "oops"`, a bodyless 503 using the generic
text, and a 2xx response whose body is returned unchanged. -/
theorem message_extraction_truthy_witness :
    (handleError (AxiosError.response
      { status := 404, statusText := "Not Found",
        data := some { message := some "not found", error := none,
                       errors := none } })).message = "not found" ∧
    (handleError (AxiosError.response
      { status := 400, statusText := "Bad Request",
        data := some { message := none, error := some "oops",
                       errors := none } })).message = "oops" ∧
    (handleError (AxiosError.response
      { status := 503, statusText := "Service Unavailable",
        data := none })).message =
      "HTTP " ++ toString (503 : Nat) ++ ": " ++ "Service Unavailable" ∧
    clientGet { status := 200, data := (7 : Nat) } = 7 :=
  message_extraction_truthy
    { status := 404, statusText := "Not Found",
      data := some { message := some "not found", error := none, errors := none } }
    { status := 400, statusText := "Bad Request",
      data := some { message := none, error := some "oops", errors := none } }
    { status := 503, statusText := "Service Unavailable", data := none }
    "not found" "oops" { status := 200, data := (7 : Nat) }
    rfl (by decide) rfl rfl (by decide) rfl rfl

/-- Claim C8: every `createError` result, the Generic default branch
included, carries `statusCode = status` and the given raw response, while
`NetworkError` and its `TimeoutError` specialization always carry a null
status code. -/
theorem error_statusCode_and_response_fields (s : Nat) (m : String)
    (r : Option HttpResponse) (m2 : String) (r2 : Option HttpResponse) :
    (createError s m r).statusCode = some s ∧
    (createError s m r).response = r ∧
    (NetworkError m2 r2).statusCode = none ∧
    (TimeoutError m2 r2).statusCode = none := by
  refine ⟨?_, ?_, rfl, rfl⟩ <;> (unfold createError; split <;> rfl)

/-- Claim C9: `setApiKey("")` clears authentication — the interceptor
treats the empty key as unset, so a request dispatched afterwards carries
no Authorization header. -/
theorem setApiKey_empty_clears_authorization (st : ClientState) :
    getHeader (dispatchHeaders (setApiKey st "")) "Authorization" = none := by
  simp [dispatchHeaders, requestInterceptor, setApiKey, truthy, defaultHeaders, getHeader]

/-- Claim C10: `buildQueryParams` is deterministic — its output depends
only on the input mapping, so identical mappings (same key order, same
values) give identical query strings. -/
theorem buildQueryParams_deterministic (p q : List (String × QVal)) (h : p = q) :
    buildQueryParams p = buildQueryParams q := by
  rw [h]

/-- Witness for C10 at a concrete mapping. -/
theorem buildQueryParams_deterministic_witness :
    buildQueryParams [("page", QVal.num 1)] = buildQueryParams [("page", QVal.num 1)] :=
  buildQueryParams_deterministic [("page", QVal.num 1)] [("page", QVal.num 1)] rfl

end Carespace
